import Mathlib

/-!
Shallow embedding of the vvpay validation and control subsystem.

Sources embedded:
- `src/models/service/enums.py` (`PaymentType`, `Status`, `ValidationStatus`)
- `src/models/db/meta.py` (`MetaTable`), `src/models/db/extraction.py`
  (`PDFExtraction`), `src/models/db/validation.py` (`ValidationResult`,
  `ValidationControl`, error entries)
- `src/utils/db_utils.py` (`get_records`, `insert_record`, `update_record`,
  `serialize_data`)
- `src/repositories/validation.py` (`get_control`, `create_control`),
  `src/repositories/base.py` (`create`, `update`, `get_all`)
- `src/services/validation_service.py` (`validate_extraction`,
  `validate_all_pending`)

Monetary values (Python `Decimal`) are modelled as exact rationals `ℚ`;
timestamps as `Nat`; record ids as `Nat`.  The store is a record of four
lists (meta table, validation results, validation control, extractions).
Store failures are injected through a `Faults` record: each primitive
consults its flag and behaves exactly as the Python code does when the
underlying supabase call raises.  In particular `get_records`
(db_utils.py lines 95-145) catches every exception and returns the empty
list, so lookup faults yield `[]`/`none` rather than an error, while
`insert_record`/`update_record` raise `DatabaseError`, which
`validate_extraction` re-raises wrapped in `ValidationError`.
-/

/-- `PaymentType` from `src/models/service/enums.py`. -/
inductive PaymentType where
  | pc
  | reembolso
  | bonus
deriving DecidableEq, Repr

/-- Processing `Status` from `src/models/service/enums.py`. -/
inductive Status where
  | pending
  | processing
  | extracted
  | failed
  | validated
deriving DecidableEq, Repr

/-- `ValidationStatus` from `src/models/service/enums.py` (all eight members,
whether or not the service uses them). -/
inductive ValidationStatus where
  | valid
  | invalid
  | already_validated
  | failed
  | pending
  | processing
  | amount_mismatch
  | meta_not_found
deriving DecidableEq, Repr

/-- The exception surface of the service layer, from `src/core/exceptions.py`:
`DatabaseError` is raised by the store primitives, `ValidationError` is what
`validate_extraction` wraps any caught exception into. -/
inductive AppError where
  | databaseError
  | validationError
deriving DecidableEq, Repr

deriving instance DecidableEq for Except

/-- One entry of `validation_errors` — the `ValidationError` pydantic model of
`src/models/db/validation.py` (the `severity`/`details` fields always take
their defaults in the service and are omitted). -/
structure VErrorEntry where
  field : String
  error : String
deriving DecidableEq, Repr

/-- `MetaTable` from `src/models/db/meta.py`.  The four expected-amount
columns are optional decimals. -/
structure MetaTable where
  id : Nat
  nome : String
  cpf_cnpj : String
  tipo : String
  pix : String
  ago_pc : Option ℚ
  ago_bn : Option ℚ
  ago_re : Option ℚ
  out_pc : Option ℚ
deriving DecidableEq, Repr

/-- `PDFExtraction` from `src/models/db/extraction.py`, restricted to the
fields the validation subsystem reads or writes (`raw_text`, `payee_name`,
`description`, `confidence_score`, `error_message`, `extracted_at` are
carried along unchanged by the code and are omitted here). -/
structure PDFExtraction where
  id : Nat
  file_name : String
  cnpj : String
  valor : ℚ
  competence : String
  payment_type : PaymentType
  status : Status
deriving DecidableEq, Repr

/-- `ValidationResult` from `src/models/db/validation.py`, restricted to the
fields the claims mention (`details` and `notes` omitted). -/
structure ValidationResult where
  pdf_extraction_id : Nat
  meta_table_id : Option Nat := none
  is_valid : Bool
  status : ValidationStatus
  validation_errors : List VErrorEntry
  validated_at : Nat
deriving DecidableEq, Repr

/-- `ValidationControl` from `src/models/db/validation.py`. -/
structure ValidationControl where
  meta_table_id : Nat
  payment_type : PaymentType
  competence : String
  validated_at : Nat
deriving DecidableEq, Repr

/-- The persistent store: the three logical tables of the validation
subsystem plus the read-only meta (reference) table. -/
structure Store where
  meta : List MetaTable
  results : List ValidationResult
  controls : List ValidationControl
  extractions : List PDFExtraction
deriving DecidableEq, Repr

/-- Fault injection for the store layer.  A `true` flag makes the underlying
supabase call raise on that invocation; each primitive below then reacts the
way the Python wrapper does (swallow for reads, raise for writes). -/
structure Faults where
  metaLookupFails : String → Bool
  controlLookupFails : Bool
  pendingFetchFails : Bool
  resultInsertFails : Nat → Bool
  controlInsertFails : Bool
  extractionUpdateFails : Nat → Bool

/-- The fault-free store. -/
def noFaults : Faults where
  metaLookupFails := fun _ => false
  controlLookupFails := false
  pendingFetchFails := false
  resultInsertFails := fun _ => false
  controlInsertFails := false
  extractionUpdateFails := fun _ => false

/-- `meta_repository.get_all(filters={"cpf_cnpj": cnpj})`.  `get_records`
(db_utils.py lines 139-145) catches every exception and returns `[]`, so a
store failure during this lookup produces the empty list, not an error. -/
def get_records_meta (f : Faults) (s : Store) (cnpj : String) : List MetaTable :=
  if f.metaLookupFails cnpj then []
  else s.meta.filter (fun m => decide (m.cpf_cnpj = cnpj))

/-- `ValidationRepository.get_control` (repositories/validation.py lines
24-52): an equality-filtered `get_records` on `validation_control`, returning
the first match.  A store failure again yields `[]` from `get_records`, hence
`none` here. -/
def get_control (f : Faults) (s : Store) (mid : Nat) (pt : PaymentType)
    (comp : String) : Option ValidationControl :=
  if f.controlLookupFails then none
  else (s.controls.filter (fun c =>
    decide (c.meta_table_id = mid) && decide (c.payment_type = pt)
      && decide (c.competence = comp))).head?

/-- `validation_repository.create` (BaseRepository.create → `insert_record`):
appends the row; a store failure raises `DatabaseError` and writes nothing. -/
def insert_result (f : Faults) (s : Store) (r : ValidationResult) :
    Except AppError Store :=
  if f.resultInsertFails r.pdf_extraction_id then Except.error AppError.databaseError
  else Except.ok { s with results := s.results ++ [r] }

/-- `validation_repository.create_control` (repositories/validation.py lines
54-104, via `TransactionMixin.execute_transaction` →
`DatabaseTransaction.execute` → `insert_record`): a single insert; on failure
`DatabaseError` is raised and nothing is written (the rollback list for an
insert is a no-op delete). -/
def insert_control (f : Faults) (s : Store) (c : ValidationControl) :
    Except AppError Store :=
  if f.controlInsertFails then Except.error AppError.databaseError
  else Except.ok { s with controls := s.controls ++ [c] }

/-- `extraction_repository.update(extraction.id, extraction)`
(BaseRepository.update → `update_record`): overwrites the row with the given
id with the passed model; raises `DatabaseError` on a store failure or when no
row matched ("No result returned", db_utils.py lines 211-222). -/
def update_extraction (f : Faults) (s : Store) (e : PDFExtraction) :
    Except AppError Store :=
  if f.extractionUpdateFails e.id then Except.error AppError.databaseError
  else if s.extractions.any (fun x => decide (x.id = e.id)) then
    Except.ok { s with extractions :=
      s.extractions.map (fun x => if x.id = e.id then e else x) }
  else Except.error AppError.databaseError

/-- Status of the stored extraction with the given id, if any. -/
def extraction_status (s : Store) (eid : Nat) : Option Status :=
  ((s.extractions.filter (fun e => decide (e.id = eid))).head?).map
    (fun e => e.status)

/-- The f-string of the amount-mismatch error (validation_service.py lines
96/102/108); decimal rendering is abstracted by `toString` on `ℚ`. -/
def mismatch_message (label : String) (expected : ℚ) : String :=
  "Amount mismatch for " ++ label ++ ": expected " ++ toString expected

/-- One arm of the `elif` chain of validation_service.py lines 92-109:
`if meta_record.<col> :` is Python truthiness on an optional `Decimal`, so the
check is skipped when the column is `None` **or** zero. -/
def amount_check (expected : Option ℚ) (label : String) (valor : ℚ) :
    List VErrorEntry :=
  match expected with
  | none => []
  | some v =>
    if v ≠ 0 then
      if v ≠ valor then [{ field := "valor", error := mismatch_message label v }]
      else []
    else []

/-- The full `elif` chain (lines 92-109): the expected-amount column is chosen
by payment type. -/
def amount_validation_errors (m : MetaTable) (e : PDFExtraction) :
    List VErrorEntry :=
  match e.payment_type with
  | PaymentType.pc => amount_check m.ago_pc "PC" e.valor
  | PaymentType.bonus => amount_check m.ago_bn "Bonus" e.valor
  | PaymentType.reembolso => amount_check m.ago_re "Reembolso" e.valor

/-- The expected-amount column a payment type selects, used to state claims
about the amount check. -/
def expected_amount (m : MetaTable) (pt : PaymentType) : Option ℚ :=
  match pt with
  | PaymentType.pc => m.ago_pc
  | PaymentType.bonus => m.ago_bn
  | PaymentType.reembolso => m.ago_re

/-- `ValidationService.validate_extraction` (validation_service.py lines
61-173).  The pair returned is (outcome, store state after the call): when the
Python code raises, the store keeps whatever writes had already landed.
Branches in source order:
1. meta lookup; empty → return an unpersisted `INVALID` result (lines 76-86);
2. the amount `elif` chain (lines 92-109);
3. control lookup; hit → return an unpersisted `ALREADY_VALIDATED` result
   (lines 111-129);
4. build the result (lines 131-143) and `create` it (line 146);
5. if valid: `create_control` then update the extraction to `VALIDATED`,
   else update it to `FAILED` (lines 148-163); any raise from a write
   propagates as `ValidationError` (lines 167-173). -/
def validate_extraction (f : Faults) (now : Nat) (s : Store)
    (extraction : PDFExtraction) : Except AppError ValidationResult × Store :=
  match get_records_meta f s extraction.cnpj with
  | [] =>
    (Except.ok
      { pdf_extraction_id := extraction.id
        meta_table_id := none
        is_valid := false
        status := ValidationStatus.invalid
        validation_errors := [{ field := "cnpj", error := "CNPJ not found in meta table" }]
        validated_at := now }, s)
  | meta_record :: _ =>
    let validation_errors := amount_validation_errors meta_record extraction
    match get_control f s meta_record.id extraction.payment_type
        extraction.competence with
    | some _ =>
      (Except.ok
        { pdf_extraction_id := extraction.id
          meta_table_id := some meta_record.id
          is_valid := false
          status := ValidationStatus.already_validated
          validation_errors :=
            [{ field := "control", error := "Document already validated for this period" }]
          validated_at := now }, s)
    | none =>
      let result : ValidationResult :=
        { pdf_extraction_id := extraction.id
          meta_table_id := some meta_record.id
          is_valid := validation_errors.isEmpty
          status := if validation_errors.isEmpty then ValidationStatus.valid
                    else ValidationStatus.invalid
          validation_errors := validation_errors
          validated_at := now }
      match insert_result f s result with
      | Except.error _ => (Except.error AppError.validationError, s)
      | Except.ok s1 =>
        if result.is_valid then
          match insert_control f s1
              { meta_table_id := meta_record.id
                payment_type := extraction.payment_type
                competence := extraction.competence
                validated_at := now } with
          | Except.error _ => (Except.error AppError.validationError, s1)
          | Except.ok s2 =>
            match update_extraction f s2 { extraction with status := Status.validated } with
            | Except.error _ => (Except.error AppError.validationError, s2)
            | Except.ok s3 => (Except.ok result, s3)
        else
          match update_extraction f s1 { extraction with status := Status.failed } with
          | Except.error _ => (Except.error AppError.validationError, s1)
          | Except.ok s2 => (Except.ok result, s2)

/-- `extraction_repository.get_all(filters={"status": Status.EXTRACTED})`
(validation_service.py lines 179-181); like every `get_records` call it
returns `[]` when the store fails. -/
def pending_extractions (f : Faults) (s : Store) : List PDFExtraction :=
  if f.pendingFetchFails then []
  else s.extractions.filter (fun e => decide (e.status = Status.extracted))

/-- The per-item loop of `validate_all_pending` (lines 183-190): each
extraction is validated in turn, a raising item is logged and skipped, the
store state threads through. -/
def run_batch (f : Faults) (now : Nat) :
    Store → List PDFExtraction → List ValidationResult × Store
  | s, [] => ([], s)
  | s, e :: rest =>
    match validate_extraction f now s e with
    | (Except.ok r, s1) =>
      let p := run_batch f now s1 rest
      (r :: p.1, p.2)
    | (Except.error _, s1) => run_batch f now s1 rest

/-- How many items of the batch raise (specification-side measure, defined by
the same recursion as `run_batch`). -/
def batch_error_count (f : Faults) (now : Nat) :
    Store → List PDFExtraction → Nat
  | _, [] => 0
  | s, e :: rest =>
    match validate_extraction f now s e with
    | (Except.ok _, s1) => batch_error_count f now s1 rest
    | (Except.error _, s1) => 1 + batch_error_count f now s1 rest

/-- `ValidationService.validate_all_pending` (lines 175-199). -/
def validate_all_pending (f : Faults) (now : Nat) (s : Store) :
    List ValidationResult × Store :=
  run_batch f now s (pending_extractions f s)

/-- Two control entries cover the same (reference record, payment type,
competence) triple. -/
def same_triple (a b : ValidationControl) : Prop :=
  a.meta_table_id = b.meta_table_id ∧ a.payment_type = b.payment_type
    ∧ a.competence = b.competence

instance : DecidablePred fun p : ValidationControl × ValidationControl =>
    same_triple p.1 p.2 := fun p => by unfold same_triple; infer_instance

instance (a b : ValidationControl) : Decidable (same_triple a b) := by
  unfold same_triple; infer_instance

/-- The §3 composite uniqueness invariant: no two control entries share a
triple. -/
def ControlsUnique (s : Store) : Prop :=
  s.controls.Pairwise (fun a b => ¬ same_triple a b)

instance (s : Store) : Decidable (ControlsUnique s) := by
  unfold ControlsUnique; exact List.instDecidablePairwise _

/-! ### The store serialization layer (`serialize_data`, db_utils.py 42-62) -/

/-- The universe of Python values flowing into `serialize_data`.  `vDec` is an
exact `Decimal`; `vFloat` carries the rational value of a binary64 float;
`vComposite` stands for a dict or list together with its `json.dumps`
rendering; `vDatetime` is a timestamp. -/
inductive PyVal where
  | vNone
  | vStr (s : String)
  | vDec (q : ℚ)
  | vFloat (q : ℚ)
  | vDatetime (t : Nat)
  | vEnum (s : String)
  | vComposite (json : String)
  | vBool (b : Bool)
  | vInt (n : Int)
deriving DecidableEq, Repr

/-- `datetime.isoformat` abstracted: some injective rendering of the
timestamp. -/
def isoformat (t : Nat) : String := "ts-" ++ toString t

/-- Multiply a rational by an integer power of two, using `Nat` powers so the
kernel can evaluate it. -/
def mulPow2 (q : ℚ) (k : ℤ) : ℚ :=
  if 0 ≤ k then q * ((2 ^ k.toNat : ℕ) : ℚ)
  else q / ((2 ^ (-k).toNat : ℕ) : ℚ)

/-- The integer `e` with `2 ^ e ≤ q < 2 ^ (e + 1)` for positive `q`: first
guess from the bit lengths of numerator and denominator, then adjust. -/
def ratLog2 (q : ℚ) : ℤ :=
  let g : ℤ := (Nat.log2 q.num.natAbs : ℤ) - (Nat.log2 q.den : ℤ)
  if q < mulPow2 1 g then g - 1
  else if mulPow2 1 (g + 1) ≤ q then g + 1
  else g

/-- Python's `float()` on a `Decimal`: round-to-nearest-even conversion to
IEEE binary64, modelled exactly for the normal range (monetary amounts never
reach subnormal or overflow territory). -/
def pyFloat (q : ℚ) : ℚ :=
  if q = 0 then 0
  else
    let a := |q|
    let e := ratLog2 a
    let scaled := mulPow2 a (52 - e)
    let m : ℤ := Rat.floor scaled
    let r : ℚ := scaled - (m : ℚ)
    let m2 : ℤ :=
      if 1 / 2 < r then m + 1
      else if r < 1 / 2 then m
      else if m % 2 = 0 then m else m + 1
    let mag := mulPow2 (m2 : ℚ) (e - 52)
    if q < 0 then -mag else mag

/-- `serialize_value` (db_utils.py lines 44-53): datetimes to isoformat
strings, Decimals to floats, enums to their value, dicts/lists to
`json.dumps`, everything else unchanged. -/
def serialize_value : PyVal → PyVal
  | PyVal.vDatetime t => PyVal.vStr (isoformat t)
  | PyVal.vDec q => PyVal.vFloat (pyFloat q)
  | PyVal.vEnum s => PyVal.vStr s
  | PyVal.vComposite j => PyVal.vStr j
  | v => v

/-- Is the value Python `None`? -/
def is_none_val : PyVal → Bool
  | PyVal.vNone => true
  | _ => false

/-- `serialize_data` (db_utils.py lines 42-62): keep the entries whose value
is not `None` and whose key is not in `exclude_fields = {'created_at'}`, and
serialize each kept value. -/
def serialize_data (data : List (String × PyVal)) : List (String × PyVal) :=
  (data.filter (fun kv => !(is_none_val kv.2) && !(decide (kv.1 = "created_at")))).map
    (fun kv => (kv.1, serialize_value kv.2))

/-! ### Helper lemmas characterizing the branches of `validate_extraction` -/

/-- The `ValidationResult` record built at validation_service.py lines
131-143 (abbreviation used to state branch lemmas). -/
def built_result (now : Nat) (m : MetaTable) (e : PDFExtraction) : ValidationResult :=
  { pdf_extraction_id := e.id
    meta_table_id := some m.id
    is_valid := (amount_validation_errors m e).isEmpty
    status := if (amount_validation_errors m e).isEmpty then ValidationStatus.valid
              else ValidationStatus.invalid
    validation_errors := amount_validation_errors m e
    validated_at := now }

/-- The `ValidationControl` record built at validation_service.py lines
150-155. -/
def built_control (now : Nat) (m : MetaTable) (e : PDFExtraction) : ValidationControl :=
  { meta_table_id := m.id
    payment_type := e.payment_type
    competence := e.competence
    validated_at := now }

/-- The unpersisted result returned when the reference lookup yields nothing
(lines 76-86). -/
def no_meta_result (now : Nat) (e : PDFExtraction) : ValidationResult :=
  { pdf_extraction_id := e.id
    meta_table_id := none
    is_valid := false
    status := ValidationStatus.invalid
    validation_errors := [{ field := "cnpj", error := "CNPJ not found in meta table" }]
    validated_at := now }

/-- The unpersisted result returned when a control entry already exists
(lines 118-129). -/
def already_result (now : Nat) (mid : Nat) (e : PDFExtraction) : ValidationResult :=
  { pdf_extraction_id := e.id
    meta_table_id := some mid
    is_valid := false
    status := ValidationStatus.already_validated
    validation_errors := [{ field := "control", error := "Document already validated for this period" }]
    validated_at := now }

lemma validate_extraction_no_meta (f : Faults) (now : Nat) (s : Store)
    (e : PDFExtraction) (h : get_records_meta f s e.cnpj = []) :
    validate_extraction f now s e = (Except.ok (no_meta_result now e), s) := by
  simp [validate_extraction, h, no_meta_result]

lemma validate_extraction_already (f : Faults) (now : Nat) (s : Store)
    (e : PDFExtraction) (m : MetaTable) (tl : List MetaTable) (c : ValidationControl)
    (hm : get_records_meta f s e.cnpj = m :: tl)
    (hc : get_control f s m.id e.payment_type e.competence = some c) :
    validate_extraction f now s e = (Except.ok (already_result now m.id e), s) := by
  simp [validate_extraction, hm, hc, already_result]

lemma validate_extraction_fresh (f : Faults) (now : Nat) (s : Store)
    (e : PDFExtraction) (m : MetaTable) (tl : List MetaTable)
    (hm : get_records_meta f s e.cnpj = m :: tl)
    (hc : get_control f s m.id e.payment_type e.competence = none) :
    validate_extraction f now s e =
      match insert_result f s (built_result now m e) with
      | Except.error _ => (Except.error AppError.validationError, s)
      | Except.ok s1 =>
        if (built_result now m e).is_valid then
          match insert_control f s1 (built_control now m e) with
          | Except.error _ => (Except.error AppError.validationError, s1)
          | Except.ok s2 =>
            match update_extraction f s2 { e with status := Status.validated } with
            | Except.error _ => (Except.error AppError.validationError, s2)
            | Except.ok s3 => (Except.ok (built_result now m e), s3)
        else
          match update_extraction f s1 { e with status := Status.failed } with
          | Except.error _ => (Except.error AppError.validationError, s1)
          | Except.ok s2 => (Except.ok (built_result now m e), s2) := by
  simp only [validate_extraction, hm, hc, built_result, built_control]

/-- Inversion for a successful result insert. -/
lemma insert_result_ok (f : Faults) (s : Store) (r : ValidationResult) (s1 : Store)
    (h : insert_result f s r = Except.ok s1) :
    f.resultInsertFails r.pdf_extraction_id = false
      ∧ s1 = { s with results := s.results ++ [r] } := by
  unfold insert_result at h
  by_cases hf : f.resultInsertFails r.pdf_extraction_id
  · simp [hf] at h
  · simp [hf] at h
    exact ⟨by simp [hf], h.symm⟩

/-- Inversion for a successful control insert. -/
lemma insert_control_ok (f : Faults) (s : Store) (c : ValidationControl) (s1 : Store)
    (h : insert_control f s c = Except.ok s1) :
    f.controlInsertFails = false ∧ s1 = { s with controls := s.controls ++ [c] } := by
  unfold insert_control at h
  by_cases hf : f.controlInsertFails
  · simp [hf] at h
  · simp [hf] at h
    exact ⟨by simp [hf], h.symm⟩

/-- Inversion for a successful extraction update. -/
lemma update_extraction_ok (f : Faults) (s : Store) (e : PDFExtraction) (s1 : Store)
    (h : update_extraction f s e = Except.ok s1) :
    f.extractionUpdateFails e.id = false
      ∧ s.extractions.any (fun x => decide (x.id = e.id)) = true
      ∧ s1 = { s with extractions :=
          s.extractions.map (fun x => if x.id = e.id then e else x) } := by
  unfold update_extraction at h
  by_cases hf : f.extractionUpdateFails e.id
  · simp [hf] at h
  · by_cases hp : s.extractions.any (fun x => decide (x.id = e.id))
    · simp [hf, hp] at h
      exact ⟨by simp [hf], hp, h.symm⟩
    · simp [hf, hp] at h

/-- After overwriting every row with id `eid` by `e'` (with `e'.id = eid`),
the first row with id `eid` is `e'`. -/
lemma head?_filter_map_update (l : List PDFExtraction) (e' : PDFExtraction)
    (h : l.any (fun x => decide (x.id = e'.id)) = true) :
    ((l.map (fun x => if x.id = e'.id then e' else x)).filter
      (fun x => decide (x.id = e'.id))).head? = some e' := by
  induction l with
  | nil => simp at h
  | cons x xs ih =>
    by_cases hx : x.id = e'.id
    · simp [hx]
    · simp only [List.any_cons, Bool.or_eq_true, decide_eq_true_eq] at h
      rcases h with h | h
      · exact absurd h hx
      · simpa [hx] using ih h

/-- Every batch item contributes either one returned result or one counted
failure: results plus failures add up to the batch length. -/
lemma run_batch_length (f : Faults) (now : Nat) :
    ∀ (l : List PDFExtraction) (s : Store),
      (run_batch f now s l).1.length + batch_error_count f now s l = l.length := by
  intro l
  induction l with
  | nil => intro s; simp [run_batch, batch_error_count]
  | cons e rest ih =>
    intro s
    rcases hv : validate_extraction f now s e with ⟨outcome, s1⟩
    cases outcome with
    | ok r =>
      simp only [run_batch, batch_error_count, hv, List.length_cons]
      have := ih s1
      omega
    | error err =>
      simp only [run_batch, batch_error_count, hv, List.length_cons]
      have := ih s1
      omega

/-! ### Concrete scenarios used by counterexamples and witnesses -/

/-- A reference record with an expected PC amount of 1000 (Scenario A of the
spec). -/
def meta1 : MetaTable :=
  { id := 1, nome := "Provider", cpf_cnpj := "12345678901234", tipo := "PJ",
    pix := "pix-key", ago_pc := some 1000, ago_bn := none, ago_re := none,
    out_pc := none }

/-- An extraction matching `meta1` with the expected amount. -/
def ext_ok : PDFExtraction :=
  { id := 10, file_name := "doc1.pdf", cnpj := "12345678901234", valor := 1000,
    competence := "08/2024", payment_type := PaymentType.pc,
    status := Status.extracted }

/-- Store holding `meta1` and `ext_ok`, no results, no controls. -/
def store_ok : Store :=
  { meta := [meta1], results := [], controls := [], extractions := [ext_ok] }

/-- An extraction whose tax id matches no reference record. -/
def ext_nometa : PDFExtraction :=
  { id := 20, file_name := "doc2.pdf", cnpj := "00000000000000", valor := 500,
    competence := "08/2024", payment_type := PaymentType.pc,
    status := Status.extracted }

/-- Store for the no-reference scenario. -/
def store_nometa : Store :=
  { meta := [meta1], results := [], controls := [], extractions := [ext_nometa] }

/-- A control entry occupying `meta1`'s triple for 08/2024 PC. -/
def control1 : ValidationControl :=
  { meta_table_id := 1, payment_type := PaymentType.pc, competence := "08/2024",
    validated_at := 0 }

/-- An extraction whose triple is already covered by `control1`. -/
def ext_dup : PDFExtraction :=
  { id := 30, file_name := "doc3.pdf", cnpj := "12345678901234", valor := 1000,
    competence := "08/2024", payment_type := PaymentType.pc,
    status := Status.extracted }

/-- Store for the duplicate scenario. -/
def store_dup : Store :=
  { meta := [meta1], results := [], controls := [control1], extractions := [ext_dup] }

/-- A reference record whose expected PC amount is present but zero. -/
def meta_zero : MetaTable :=
  { id := 2, nome := "ZeroProvider", cpf_cnpj := "11111111111111", tipo := "PJ",
    pix := "pix-z", ago_pc := some 0, ago_bn := none, ago_re := none,
    out_pc := none }

/-- An extraction matched to `meta_zero` with a different amount. -/
def ext_zero : PDFExtraction :=
  { id := 40, file_name := "doc4.pdf", cnpj := "11111111111111", valor := 250,
    competence := "09/2024", payment_type := PaymentType.pc,
    status := Status.extracted }

/-- Store for the zero-expected-amount scenario. -/
def store_zero : Store :=
  { meta := [meta_zero], results := [], controls := [], extractions := [ext_zero] }

/-- An extraction matched to `meta1` with a mismatching amount (Scenario B). -/
def ext_mismatch : PDFExtraction :=
  { id := 50, file_name := "doc5.pdf", cnpj := "12345678901234", valor := 950,
    competence := "10/2024", payment_type := PaymentType.pc,
    status := Status.extracted }

/-- Store for the amount-mismatch scenario. -/
def store_mismatch : Store :=
  { meta := [meta1], results := [], controls := [], extractions := [ext_mismatch] }

/-- Faults making the control-entry insert fail. -/
def faults_control_insert : Faults := { noFaults with controlInsertFails := true }

/-- Faults making every meta lookup fail (swallowed by `get_records`). -/
def faults_lookups_down : Faults :=
  { noFaults with metaLookupFails := fun _ => true, controlLookupFails := true }

/-! ### Claims -/

/-- C3 (counterexample): on an extraction whose tax id matches no reference
record, `validate()` returns status `invalid`, not `meta_not_found`, and the
extraction's stored status stays `extracted` instead of becoming `failed`. -/
theorem C3_counterexample :
    (validate_extraction noFaults 0 store_nometa ext_nometa).1 =
        Except.ok (no_meta_result 0 ext_nometa)
      ∧ (no_meta_result 0 ext_nometa).status = ValidationStatus.invalid
      ∧ ValidationStatus.invalid ≠ ValidationStatus.meta_not_found
      ∧ extraction_status (validate_extraction noFaults 0 store_nometa ext_nometa).2 20 =
          some Status.extracted
      ∧ Status.extracted ≠ Status.failed := by decide

/-- C3 (amended): for every extraction whose tax id matches no record in the
reference store, `validate()` returns a result with status `invalid` (not
`meta_not_found`), `is_valid = false`, carrying the error on field `cnpj`;
the result is not persisted and the store — in particular the extraction's
status — is left unchanged. -/
theorem C3_no_reference_result (now : Nat) (s : Store) (e : PDFExtraction)
    (h : s.meta.filter (fun m => decide (m.cpf_cnpj = e.cnpj)) = []) :
    validate_extraction noFaults now s e = (Except.ok (no_meta_result now e), s)
      ∧ (no_meta_result now e).status = ValidationStatus.invalid
      ∧ (no_meta_result now e).is_valid = false
      ∧ (no_meta_result now e).validation_errors =
          [{ field := "cnpj", error := "CNPJ not found in meta table" }]
      ∧ extraction_status (validate_extraction noFaults now s e).2 e.id =
          extraction_status s e.id := by
  have hg : get_records_meta noFaults s e.cnpj = [] := by
    simpa [get_records_meta, noFaults] using h
  have hv := validate_extraction_no_meta noFaults now s e hg
  exact ⟨hv, rfl, rfl, rfl, by rw [hv]⟩

/-- C3 witness: the amended statement holds on the concrete no-reference
scenario. -/
theorem C3_witness :
    validate_extraction noFaults 0 store_nometa ext_nometa =
        (Except.ok (no_meta_result 0 ext_nometa), store_nometa)
      ∧ (no_meta_result 0 ext_nometa).status = ValidationStatus.invalid
      ∧ (no_meta_result 0 ext_nometa).is_valid = false
      ∧ (no_meta_result 0 ext_nometa).validation_errors =
          [{ field := "cnpj", error := "CNPJ not found in meta table" }]
      ∧ extraction_status (validate_extraction noFaults 0 store_nometa ext_nometa).2
          ext_nometa.id = extraction_status store_nometa ext_nometa.id :=
  C3_no_reference_result 0 store_nometa ext_nometa (by decide)

/-- C2 (counterexample): on the duplicate-control scenario `validate()`
returns a result without raising, yet nothing was written — the returned
result is not persisted anywhere. -/
theorem C2_counterexample :
    (validate_extraction noFaults 5 store_dup ext_dup).1 =
        Except.ok (already_result 5 1 ext_dup)
      ∧ (validate_extraction noFaults 5 store_dup ext_dup).2.results = [] := by decide

/-- C2 (amended): a call to `validate()` that returns a result either
persisted it, or took the reference-not-found branch (`meta_table_id = none`,
status `invalid`) or the already-validated branch, both of which return an
unpersisted result and leave the store unchanged. -/
theorem C2_returned_result_persisted_unless_early_branch (f : Faults) (now : Nat)
    (s : Store) (e : PDFExtraction) (r : ValidationResult) (s2 : Store)
    (h : validate_extraction f now s e = (Except.ok r, s2)) :
    r ∈ s2.results
      ∨ (r.meta_table_id = none ∧ r.status = ValidationStatus.invalid ∧ s2 = s)
      ∨ (r.status = ValidationStatus.already_validated ∧ s2 = s) := by
  cases hm : get_records_meta f s e.cnpj with
  | nil =>
    rw [validate_extraction_no_meta f now s e hm] at h
    simp only [Prod.mk.injEq, Except.ok.injEq] at h
    obtain ⟨hr, hs⟩ := h
    right; left
    subst hr hs
    exact ⟨rfl, rfl, rfl⟩
  | cons m tl =>
    cases hc : get_control f s m.id e.payment_type e.competence with
    | some c =>
      rw [validate_extraction_already f now s e m tl c hm hc] at h
      simp only [Prod.mk.injEq, Except.ok.injEq] at h
      obtain ⟨hr, hs⟩ := h
      right; right
      subst hr hs
      exact ⟨rfl, rfl⟩
    | none =>
      rw [validate_extraction_fresh f now s e m tl hm hc] at h
      cases hins : insert_result f s (built_result now m e) with
      | error err => rw [hins] at h; simp at h
      | ok s1 =>
        obtain ⟨hf1, hs1⟩ := insert_result_ok f s _ s1 hins
        simp only [hins] at h
        by_cases hval : (built_result now m e).is_valid
        · rw [if_pos hval] at h
          cases hic : insert_control f s1 (built_control now m e) with
          | error err => rw [hic] at h; simp at h
          | ok s2' =>
            obtain ⟨hf2, hs2'⟩ := insert_control_ok f s1 _ s2' hic
            simp only [hic] at h
            cases hup : update_extraction f s2' { e with status := Status.validated } with
            | error err => rw [hup] at h; simp at h
            | ok s3 =>
              obtain ⟨hf3, hany, hs3⟩ := update_extraction_ok f s2' _ s3 hup
              simp only [hup, Prod.mk.injEq, Except.ok.injEq] at h
              obtain ⟨hr, hs⟩ := h
              left
              subst hr hs
              subst hs3 hs2' hs1
              simp
        · rw [if_neg hval] at h
          cases hup : update_extraction f s1 { e with status := Status.failed } with
          | error err => rw [hup] at h; simp at h
          | ok s2' =>
            obtain ⟨hf3, hany, hs2'⟩ := update_extraction_ok f s1 _ s2' hup
            simp only [hup, Prod.mk.injEq, Except.ok.injEq] at h
            obtain ⟨hr, hs⟩ := h
            left
            subst hr hs
            subst hs2' hs1
            simp

/-- The persisted result of the valid Scenario-A run. -/
def result_ok : ValidationResult :=
  { pdf_extraction_id := 10, meta_table_id := some 1, is_valid := true,
    status := ValidationStatus.valid, validation_errors := [], validated_at := 0 }

/-- Store state after the valid Scenario-A run: result persisted, control
entry created, extraction marked validated. -/
def store_ok_after : Store :=
  { meta := [meta1], results := [result_ok],
    controls := [{ meta_table_id := 1, payment_type := PaymentType.pc,
                   competence := "08/2024", validated_at := 0 }],
    extractions := [{ ext_ok with status := Status.validated }] }

/-- C2 witness: the amended statement holds on the valid Scenario-A run,
where the returned result is persisted. -/
theorem C2_witness :
    result_ok ∈ store_ok_after.results
      ∨ (result_ok.meta_table_id = none ∧ result_ok.status = ValidationStatus.invalid
          ∧ store_ok_after = store_ok)
      ∨ (result_ok.status = ValidationStatus.already_validated
          ∧ store_ok_after = store_ok) :=
  C2_returned_result_persisted_unless_early_branch noFaults 0 store_ok ext_ok
    result_ok store_ok_after (by decide)

/-- C4 (counterexample): with the reference record present in the store but
the lookup failing, `validate()` raises nothing — it returns the business
`invalid` outcome instead of surfacing a system failure. -/
theorem C4_counterexample :
    meta1 ∈ store_ok.meta ∧ meta1.cpf_cnpj = ext_ok.cnpj
      ∧ (validate_extraction faults_lookups_down 0 store_ok ext_ok).1 =
          Except.ok (no_meta_result 0 ext_ok)
      ∧ (no_meta_result 0 ext_ok).status = ValidationStatus.invalid := by decide

/-- C4 (amended): store failures during the lookups of `validate()` are
swallowed by the store layer (`get_records` returns `[]`): a failing
reference lookup makes `validate()` return the business not-found/`invalid`
result unpersisted with the store unchanged, and a failing control lookup
makes `get_control` report that no control entry exists. -/
theorem C4_lookup_failures_swallowed (f : Faults) (now : Nat) (s : Store)
    (e : PDFExtraction) (mid : Nat) (pt : PaymentType) (comp : String)
    (hm : f.metaLookupFails e.cnpj = true) (hc : f.controlLookupFails = true) :
    validate_extraction f now s e = (Except.ok (no_meta_result now e), s)
      ∧ get_control f s mid pt comp = none := by
  constructor
  · exact validate_extraction_no_meta f now s e (by simp [get_records_meta, hm])
  · simp [get_control, hc]

/-- C4 witness: the amended statement at the concrete lookup-failure
scenario. -/
theorem C4_witness :
    validate_extraction faults_lookups_down 0 store_ok ext_ok =
        (Except.ok (no_meta_result 0 ext_ok), store_ok)
      ∧ get_control faults_lookups_down store_ok 1 PaymentType.pc "08/2024" = none :=
  C4_lookup_failures_swallowed faults_lookups_down 0 store_ok ext_ok 1
    PaymentType.pc "08/2024" (by decide) (by decide)

/-- C1 (counterexample): when the control-entry insert fails after the result
insert succeeded, `validate()` raises yet the validation result stays
persisted — the store state changed, so the three writes are not atomic. -/
theorem C1_counterexample :
    (validate_extraction faults_control_insert 0 store_ok ext_ok).1 =
        Except.error AppError.validationError
      ∧ (validate_extraction faults_control_insert 0 store_ok ext_ok).2 ≠ store_ok
      ∧ (validate_extraction faults_control_insert 0 store_ok ext_ok).2.results =
          [built_result 0 meta1 ext_ok]
      ∧ store_ok.results = [] := by decide

/-- C1 (amended): the three success-branch writes are applied sequentially
with no rollback: a failing result insert leaves the store unchanged, but a
failing control insert leaves the result persisted, and a failing status
update leaves both the result and the control entry persisted. -/
theorem C1_sequential_writes_no_rollback (f : Faults) (now : Nat) (s : Store)
    (e : PDFExtraction) (m : MetaTable) (tl : List MetaTable)
    (hm : get_records_meta f s e.cnpj = m :: tl)
    (hc : get_control f s m.id e.payment_type e.competence = none)
    (herr : amount_validation_errors m e = []) :
    (f.resultInsertFails e.id = true →
        validate_extraction f now s e = (Except.error AppError.validationError, s))
      ∧ (f.resultInsertFails e.id = false → f.controlInsertFails = true →
        validate_extraction f now s e =
          (Except.error AppError.validationError,
            { s with results := s.results ++ [built_result now m e] }))
      ∧ (f.resultInsertFails e.id = false → f.controlInsertFails = false →
          f.extractionUpdateFails e.id = true →
        validate_extraction f now s e =
          (Except.error AppError.validationError,
            { s with results := s.results ++ [built_result now m e],
                     controls := s.controls ++ [built_control now m e] })) := by
  have hfr := validate_extraction_fresh f now s e m tl hm hc
  refine ⟨?_, ?_, ?_⟩
  · intro h1
    rw [hfr]
    simp [insert_result, built_result, h1]
  · intro h1 h2
    rw [hfr]
    simp [insert_result, insert_control, built_result, built_control, herr, h1, h2]
  · intro h1 h2 h3
    rw [hfr]
    simp [insert_result, insert_control, update_extraction, built_result,
      built_control, herr, h1, h2, h3]

/-- C1 witness: the amended statement at the Scenario-A store. -/
theorem C1_witness :
    (faults_control_insert.resultInsertFails ext_ok.id = true →
        validate_extraction faults_control_insert 0 store_ok ext_ok =
          (Except.error AppError.validationError, store_ok))
      ∧ (faults_control_insert.resultInsertFails ext_ok.id = false →
          faults_control_insert.controlInsertFails = true →
        validate_extraction faults_control_insert 0 store_ok ext_ok =
          (Except.error AppError.validationError,
            { store_ok with results := store_ok.results ++ [built_result 0 meta1 ext_ok] }))
      ∧ (faults_control_insert.resultInsertFails ext_ok.id = false →
          faults_control_insert.controlInsertFails = false →
          faults_control_insert.extractionUpdateFails ext_ok.id = true →
        validate_extraction faults_control_insert 0 store_ok ext_ok =
          (Except.error AppError.validationError,
            { store_ok with results := store_ok.results ++ [built_result 0 meta1 ext_ok],
                            controls := store_ok.controls ++ [built_control 0 meta1 ext_ok] })) :=
  C1_sequential_writes_no_rollback faults_control_insert 0 store_ok ext_ok meta1 []
    (by decide) (by decide) (by decide)

/-- C6: when a control entry exists for the resolved triple, `validate()`
returns `already_validated` with no assumption on the amount comparison —
duplication takes precedence over `invalid`. -/
theorem C6_duplicate_takes_precedence (f : Faults) (now : Nat) (s : Store)
    (e : PDFExtraction) (m : MetaTable) (tl : List MetaTable) (c : ValidationControl)
    (hm : get_records_meta f s e.cnpj = m :: tl)
    (hc : get_control f s m.id e.payment_type e.competence = some c) :
    (validate_extraction f now s e).1 = Except.ok (already_result now m.id e)
      ∧ (already_result now m.id e).status = ValidationStatus.already_validated
      ∧ (already_result now m.id e).is_valid = false
      ∧ (already_result now m.id e).status ≠ ValidationStatus.invalid := by
  have hv := validate_extraction_already f now s e m tl c hm hc
  exact ⟨by rw [hv], rfl, rfl, by simp [already_result]⟩

/-- An extraction whose triple is covered by `control1` **and** whose amount
mismatches the reference expectation. -/
def ext_dup_mismatch : PDFExtraction :=
  { id := 60, file_name := "doc6.pdf", cnpj := "12345678901234", valor := 950,
    competence := "08/2024", payment_type := PaymentType.pc,
    status := Status.extracted }

/-- Store for the duplicate-with-mismatch scenario. -/
def store_dup_mismatch : Store :=
  { meta := [meta1], results := [], controls := [control1],
    extractions := [ext_dup_mismatch] }

/-- C6 witness: on a duplicate triple whose amount also mismatches, the
outcome is still `already_validated`, not `invalid`. -/
theorem C6_witness :
    amount_validation_errors meta1 ext_dup_mismatch ≠ []
      ∧ ((validate_extraction noFaults 7 store_dup_mismatch ext_dup_mismatch).1 =
            Except.ok (already_result 7 1 ext_dup_mismatch)
          ∧ (already_result 7 1 ext_dup_mismatch).status =
              ValidationStatus.already_validated
          ∧ (already_result 7 1 ext_dup_mismatch).is_valid = false
          ∧ (already_result 7 1 ext_dup_mismatch).status ≠ ValidationStatus.invalid) :=
  ⟨by decide,
   C6_duplicate_takes_precedence noFaults 7 store_dup_mismatch ext_dup_mismatch
     meta1 [] control1 (by decide) (by decide)⟩

/-- The label the amount-mismatch f-string uses for each payment type
(validation_service.py lines 96/102/108). -/
def type_label : PaymentType → String
  | PaymentType.pc => "PC"
  | PaymentType.bonus => "Bonus"
  | PaymentType.reembolso => "Reembolso"

/-- The `elif` chain written through the selected column. -/
lemma amount_validation_errors_eq (m : MetaTable) (e : PDFExtraction) :
    amount_validation_errors m e =
      amount_check (expected_amount m e.payment_type) (type_label e.payment_type)
        e.valor := by
  cases he : e.payment_type <;>
    simp [amount_validation_errors, expected_amount, type_label, he]

/-- C7 (counterexample): a reference record whose expected amount is present
(non-null) but **zero** is skipped by the Python truthiness test, so an
extraction with a different amount comes back `valid`, not `invalid`. -/
theorem C7_counterexample :
    expected_amount meta_zero ext_zero.payment_type = some 0
      ∧ (0 : ℚ) ≠ ext_zero.valor
      ∧ (validate_extraction noFaults 0 store_zero ext_zero).1 =
          Except.ok { pdf_extraction_id := 40, meta_table_id := some 2,
                      is_valid := true, status := ValidationStatus.valid,
                      validation_errors := [], validated_at := 0 } := by decide

/-- C7 (amended): when the expected-amount column for the extraction's
payment type is present **and nonzero** and differs from the extraction's
amount (exact decimal equality) and no control entry covers the triple,
`validate()` returns `invalid`, `is_valid = false`, with a single `valor`
error naming the expected value. -/
theorem C7_amount_mismatch_invalid (f : Faults) (now : Nat) (s : Store)
    (e : PDFExtraction) (m : MetaTable) (tl : List MetaTable) (v : ℚ)
    (hm : get_records_meta f s e.cnpj = m :: tl)
    (hexp : expected_amount m e.payment_type = some v)
    (hv0 : v ≠ 0) (hne : v ≠ e.valor)
    (hc : get_control f s m.id e.payment_type e.competence = none)
    (hrif : f.resultInsertFails e.id = false)
    (huf : f.extractionUpdateFails e.id = false)
    (hpresent : s.extractions.any (fun x => decide (x.id = e.id)) = true) :
    (validate_extraction f now s e).1 =
      Except.ok { pdf_extraction_id := e.id, meta_table_id := some m.id,
                  is_valid := false, status := ValidationStatus.invalid,
                  validation_errors :=
                    [{ field := "valor",
                       error := mismatch_message (type_label e.payment_type) v }],
                  validated_at := now } := by
  have herr : amount_validation_errors m e =
      [{ field := "valor", error := mismatch_message (type_label e.payment_type) v }] := by
    rw [amount_validation_errors_eq, hexp]
    simp [amount_check, hv0, hne]
  rw [validate_extraction_fresh f now s e m tl hm hc]
  simp [insert_result, update_extraction, built_result, herr, hrif, huf, hpresent]

/-- C7 witness: Scenario B — expected 1000, extracted 950 — yields `invalid`
with the `valor` error naming 1000. -/
theorem C7_witness :
    (validate_extraction noFaults 0 store_mismatch ext_mismatch).1 =
      Except.ok { pdf_extraction_id := ext_mismatch.id, meta_table_id := some meta1.id,
                  is_valid := false, status := ValidationStatus.invalid,
                  validation_errors :=
                    [{ field := "valor",
                       error := mismatch_message (type_label ext_mismatch.payment_type) 1000 }],
                  validated_at := 0 } :=
  C7_amount_mismatch_invalid noFaults 0 store_mismatch ext_mismatch meta1 [] 1000
    (by decide) (by decide) (by decide) (by decide) (by decide) (by decide)
    (by decide) (by decide)

/-- A fault-free `get_control` miss means no stored control entry matches the
triple. -/
lemma get_control_none_filter_nil (s : Store) (mid : Nat) (pt : PaymentType)
    (comp : String)
    (hc : get_control noFaults s mid pt comp = none) :
    s.controls.filter (fun c =>
      decide (c.meta_table_id = mid) && decide (c.payment_type = pt)
        && decide (c.competence = comp)) = [] := by
  rw [get_control] at hc
  simp only [noFaults, Bool.false_eq_true, if_false] at hc
  exact List.head?_eq_none_iff.mp hc

/-- Pointwise form of `get_control_none_filter_nil`. -/
lemma get_control_none_no_triple (s : Store) (mid : Nat) (pt : PaymentType)
    (comp : String)
    (hc : get_control noFaults s mid pt comp = none) :
    ∀ a ∈ s.controls,
      ¬(a.meta_table_id = mid ∧ a.payment_type = pt ∧ a.competence = comp) := by
  have h := get_control_none_filter_nil s mid pt comp hc
  intro a ha
  have hfa := List.filter_eq_nil_iff.mp h a ha
  simpa [Bool.and_eq_true, decide_eq_true_eq, and_assoc] using hfa

/-- A fault-free `validate()` call preserves the composite uniqueness
invariant on the control table. -/
lemma validate_preserves_controls_unique (now : Nat) (s : Store)
    (e : PDFExtraction) (hinv : ControlsUnique s) :
    ControlsUnique (validate_extraction noFaults now s e).2 := by
  cases hm : get_records_meta noFaults s e.cnpj with
  | nil => rw [validate_extraction_no_meta noFaults now s e hm]; exact hinv
  | cons m tl =>
    cases hc : get_control noFaults s m.id e.payment_type e.competence with
    | some c =>
      rw [validate_extraction_already noFaults now s e m tl c hm hc]; exact hinv
    | none =>
      have hno := get_control_none_no_triple s m.id e.payment_type e.competence hc
      rw [validate_extraction_fresh noFaults now s e m tl hm hc]
      cases hins : insert_result noFaults s (built_result now m e) with
      | error err => simp [insert_result, noFaults] at hins
      | ok s1 =>
        obtain ⟨hf1, hs1⟩ := insert_result_ok _ _ _ _ hins
        by_cases hval : (built_result now m e).is_valid
        · cases hic : insert_control noFaults s1 (built_control now m e) with
          | error err => simp [insert_control, noFaults] at hic
          | ok s2' =>
            obtain ⟨hf2, hs2'⟩ := insert_control_ok _ _ _ _ hic
            have hcu2 : ControlsUnique s2' := by
              subst hs2' hs1
              unfold ControlsUnique at hinv ⊢
              refine List.pairwise_append.mpr ⟨hinv, by simp, ?_⟩
              intro a ha b hb
              simp only [List.mem_singleton] at hb
              subst hb
              intro hst
              exact hno a ha (by simpa [same_triple, built_control] using hst)
            cases hup : update_extraction noFaults s2'
                { e with status := Status.validated } with
            | error err =>
              simp only [hins, if_pos hval, hic, hup]
              exact hcu2
            | ok s3 =>
              obtain ⟨hf3, hany, hs3⟩ := update_extraction_ok _ _ _ _ hup
              simp only [hins, if_pos hval, hic, hup]
              subst hs3
              unfold ControlsUnique at hcu2 ⊢
              simpa using hcu2
        · cases hup : update_extraction noFaults s1
              { e with status := Status.failed } with
          | error err =>
            simp only [hins, if_neg hval, hup]
            subst hs1
            unfold ControlsUnique at hinv ⊢
            simpa using hinv
          | ok s2' =>
            obtain ⟨hf3, hany, hs2'⟩ := update_extraction_ok _ _ _ _ hup
            simp only [hins, if_neg hval, hup]
            subst hs2' hs1
            unfold ControlsUnique at hinv ⊢
            simpa using hinv

/-- C5: the uniqueness invariant on (reference record, payment type,
competence) is preserved by fault-free `validate()` calls, and a call whose
triple is already covered by a control entry returns `already_validated`
(never a second `valid`) and creates no second control entry. -/
theorem C5_control_entry_unique (now now2 : Nat) (s s2 : Store)
    (e e2 : PDFExtraction) (m : MetaTable) (tl : List MetaTable)
    (c : ValidationControl)
    (hinv : ControlsUnique s) (hinv2 : ControlsUnique s2)
    (hm : get_records_meta noFaults s e.cnpj = m :: tl)
    (hc : get_control noFaults s m.id e.payment_type e.competence = some c) :
    ControlsUnique (validate_extraction noFaults now2 s2 e2).2
      ∧ ControlsUnique (validate_extraction noFaults now s e).2
      ∧ (validate_extraction noFaults now s e).1 = Except.ok (already_result now m.id e)
      ∧ (already_result now m.id e).status = ValidationStatus.already_validated
      ∧ (already_result now m.id e).is_valid = false
      ∧ (validate_extraction noFaults now s e).2.controls = s.controls := by
  have hv := validate_extraction_already noFaults now s e m tl c hm hc
  exact ⟨validate_preserves_controls_unique now2 s2 e2 hinv2,
    validate_preserves_controls_unique now s e hinv,
    by rw [hv], rfl, rfl, by rw [hv]⟩

/-- C5 witness: preservation on the Scenario-A store and duplicate-blocking
on the duplicate store. -/
theorem C5_witness :
    ControlsUnique (validate_extraction noFaults 0 store_ok ext_ok).2
      ∧ ControlsUnique (validate_extraction noFaults 5 store_dup ext_dup).2
      ∧ (validate_extraction noFaults 5 store_dup ext_dup).1 =
          Except.ok (already_result 5 1 ext_dup)
      ∧ (already_result 5 1 ext_dup).status = ValidationStatus.already_validated
      ∧ (already_result 5 1 ext_dup).is_valid = false
      ∧ (validate_extraction noFaults 5 store_dup ext_dup).2.controls =
          store_dup.controls :=
  C5_control_entry_unique 5 0 store_dup store_ok ext_dup ext_ok meta1 [] control1
    (by decide) (by decide) (by decide) (by decide)

/-- C8: a fault-free `validate()` that returns a `valid` result leaves the
extraction's stored status `validated`, and `get_control` on the new store
finds a control entry whose `meta_table_id`, `payment_type` and `competence`
equal the validated extraction's triple. -/
theorem C8_valid_roundtrip (now : Nat) (s : Store) (e : PDFExtraction)
    (m : MetaTable) (tl : List MetaTable) (r : ValidationResult) (s2 : Store)
    (hm : get_records_meta noFaults s e.cnpj = m :: tl)
    (hrun : validate_extraction noFaults now s e = (Except.ok r, s2))
    (hv : r.status = ValidationStatus.valid) :
    extraction_status s2 e.id = some Status.validated
      ∧ get_control noFaults s2 m.id e.payment_type e.competence =
          some (built_control now m e)
      ∧ (built_control now m e).meta_table_id = m.id
      ∧ (built_control now m e).payment_type = e.payment_type
      ∧ (built_control now m e).competence = e.competence := by
  cases hc : get_control noFaults s m.id e.payment_type e.competence with
  | some c =>
    rw [validate_extraction_already noFaults now s e m tl c hm hc] at hrun
    simp only [Prod.mk.injEq, Except.ok.injEq] at hrun
    obtain ⟨hr, hs⟩ := hrun
    subst hr
    simp [already_result] at hv
  | none =>
    have hnil := get_control_none_filter_nil s m.id e.payment_type e.competence hc
    rw [validate_extraction_fresh noFaults now s e m tl hm hc] at hrun
    cases hins : insert_result noFaults s (built_result now m e) with
    | error err => simp [insert_result, noFaults] at hins
    | ok s1 =>
      obtain ⟨hf1, hs1⟩ := insert_result_ok _ _ _ _ hins
      simp only [hins] at hrun
      by_cases hval : (built_result now m e).is_valid
      · rw [if_pos hval] at hrun
        cases hic : insert_control noFaults s1 (built_control now m e) with
        | error err => simp [insert_control, noFaults] at hic
        | ok s2' =>
          obtain ⟨hf2, hs2'⟩ := insert_control_ok _ _ _ _ hic
          simp only [hic] at hrun
          cases hup : update_extraction noFaults s2'
              { e with status := Status.validated } with
          | error err => simp only [hup] at hrun; simp at hrun
          | ok s3 =>
            obtain ⟨hf3, hany, hs3⟩ := update_extraction_ok _ _ _ _ hup
            simp only [hup, Prod.mk.injEq, Except.ok.injEq] at hrun
            obtain ⟨hr, hs⟩ := hrun
            subst hs
            have hupd := head?_filter_map_update s2'.extractions
              { e with status := Status.validated } hany
            refine ⟨?_, ?_, rfl, rfl, rfl⟩
            · subst hs3
              simp only [extraction_status]
              simp only at hupd
              rw [hupd]
              rfl
            · subst hs3 hs2' hs1
              simp only [get_control, noFaults, Bool.false_eq_true, if_false,
                List.filter_append, hnil, List.nil_append]
              simp [built_control]
      · rw [if_neg hval] at hrun
        cases hup : update_extraction noFaults s1 { e with status := Status.failed } with
        | error err => simp only [hup] at hrun; simp at hrun
        | ok s2' =>
          obtain ⟨hf3, hany, hs2'⟩ := update_extraction_ok _ _ _ _ hup
          simp only [hup, Prod.mk.injEq, Except.ok.injEq] at hrun
          obtain ⟨hr, hs⟩ := hrun
          subst hr
          have hbf : (built_result now m e).is_valid = false := by
            cases hb : (built_result now m e).is_valid
            · rfl
            · exact absurd hb hval
          have hie : (amount_validation_errors m e).isEmpty = false := by
            simpa [built_result] using hbf
          simp [built_result, hie] at hv

/-- C8 witness: the Scenario-A run ends with the extraction `validated` and a
retrievable control entry for the triple. -/
theorem C8_witness :
    extraction_status store_ok_after ext_ok.id = some Status.validated
      ∧ get_control noFaults store_ok_after meta1.id ext_ok.payment_type
          ext_ok.competence = some (built_control 0 meta1 ext_ok)
      ∧ (built_control 0 meta1 ext_ok).meta_table_id = meta1.id
      ∧ (built_control 0 meta1 ext_ok).payment_type = ext_ok.payment_type
      ∧ (built_control 0 meta1 ext_ok).competence = ext_ok.competence :=
  C8_valid_roundtrip 0 store_ok ext_ok meta1 [] result_ok store_ok_after
    (by decide) (by decide) (by decide)

/-- C9: `validate_all_pending` runs over exactly the snapshot of extractions
in status `extracted`; raising items are skipped while the rest are processed,
so returned results plus failures account for the whole batch, and a batch
with exactly one failing item returns its length minus one results. -/
theorem C9_batch_isolation (f : Faults) (now : Nat) (s : Store)
    (hfetch : f.pendingFetchFails = false) :
    pending_extractions f s =
        s.extractions.filter (fun x => decide (x.status = Status.extracted))
      ∧ (validate_all_pending f now s).1.length
          + batch_error_count f now s (pending_extractions f s)
          = (pending_extractions f s).length
      ∧ (batch_error_count f now s (pending_extractions f s) = 1 →
          (validate_all_pending f now s).1.length =
            (pending_extractions f s).length - 1) := by
  have h1 : pending_extractions f s =
      s.extractions.filter (fun x => decide (x.status = Status.extracted)) := by
    simp [pending_extractions, hfetch]
  have h2 := run_batch_length f now (pending_extractions f s) s
  refine ⟨h1, ?_, ?_⟩
  · simpa [validate_all_pending] using h2
  · intro hone
    simp only [validate_all_pending]
    omega

/-- A pending extraction for the batch scenario. -/
def batch_ext (i : Nat) (comp : String) : PDFExtraction :=
  { id := i, file_name := "batch.pdf", cnpj := "12345678901234", valor := 1000,
    competence := comp, payment_type := PaymentType.pc,
    status := Status.extracted }

/-- Five pending extractions over distinct competences. -/
def store_batch : Store :=
  { meta := [meta1], results := [], controls := [],
    extractions := [batch_ext 1 "01/2024", batch_ext 2 "02/2024",
      batch_ext 3 "03/2024", batch_ext 4 "04/2024", batch_ext 5 "05/2024"] }

/-- Faults making the result insert fail for extraction 3 only. -/
def faults_item3 : Faults :=
  { noFaults with resultInsertFails := fun n => decide (n = 3) }

/-- C9 witness: five pending extractions with exactly one failing item yield
four results, and the batch accounting of the theorem holds there. -/
theorem C9_witness :
    batch_error_count faults_item3 0 store_batch
        (pending_extractions faults_item3 store_batch) = 1
      ∧ (validate_all_pending faults_item3 0 store_batch).1.length = 4
      ∧ (pending_extractions faults_item3 store_batch =
            store_batch.extractions.filter
              (fun x => decide (x.status = Status.extracted))
          ∧ (validate_all_pending faults_item3 0 store_batch).1.length
              + batch_error_count faults_item3 0 store_batch
                  (pending_extractions faults_item3 store_batch)
              = (pending_extractions faults_item3 store_batch).length
          ∧ (batch_error_count faults_item3 0 store_batch
                (pending_extractions faults_item3 store_batch) = 1 →
              (validate_all_pending faults_item3 0 store_batch).1.length =
                (pending_extractions faults_item3 store_batch).length - 1)) :=
  ⟨by decide, by decide, C9_batch_isolation faults_item3 0 store_batch rfl⟩

/-- Is the value a Python `Decimal`? -/
def is_dec_val : PyVal → Bool
  | PyVal.vDec _ => true
  | _ => false

/-- `serialize_value` never outputs `None`, given the input was not `None`. -/
lemma serialize_value_ne_none (v : PyVal) (h : is_none_val v = false) :
    serialize_value v ≠ PyVal.vNone := by
  cases v <;> simp_all [serialize_value, is_none_val]

/-- `serialize_value` never outputs a `Decimal`. -/
lemma serialize_value_not_dec (v : PyVal) :
    is_dec_val (serialize_value v) = false := by
  cases v <;> rfl

/-- C10: the store serializer converts every kept `Decimal` field to the
binary64 float `float()` produces, drops every `None` field, and leaves no
`Decimal` (and no `None`) in the written payload — the persisted amount is a
float, not the exact in-memory decimal. -/
theorem C10_decimal_to_float_none_dropped (data : List (String × PyVal))
    (k : String) (q : ℚ) (kv : String × PyVal)
    (hmem : (k, PyVal.vDec q) ∈ data) (hk : k ≠ "created_at")
    (hkv : kv ∈ serialize_data data) :
    serialize_value (PyVal.vDec q) = PyVal.vFloat (pyFloat q)
      ∧ (k, PyVal.vFloat (pyFloat q)) ∈ serialize_data data
      ∧ kv.2 ≠ PyVal.vNone
      ∧ is_dec_val kv.2 = false := by
  obtain ⟨p, hp, hpe⟩ := List.mem_map.mp hkv
  obtain ⟨hpmem, hpf⟩ := List.mem_filter.mp hp
  simp only [Bool.and_eq_true, Bool.not_eq_true'] at hpf
  refine ⟨rfl, ?_, ?_, ?_⟩
  · have hin : (k, PyVal.vDec q) ∈ data.filter
        (fun p => !(is_none_val p.2) && !(decide (p.1 = "created_at"))) := by
      rw [List.mem_filter]
      exact ⟨hmem, by simp [is_none_val, hk]⟩
    have hm := List.mem_map_of_mem (fun p => (p.1, serialize_value p.2)) hin
    simpa [serialize_data, serialize_value] using hm
  · rw [← hpe]
    exact serialize_value_ne_none p.2 hpf.1
  · rw [← hpe]
    exact serialize_value_not_dec p.2

/-- Concrete payload: a decimal amount, a `None` field, a `created_at`. -/
def data_w : List (String × PyVal) :=
  [("valor", PyVal.vDec (1007 / 50)), ("notes", PyVal.vNone),
   ("created_at", PyVal.vDatetime 99)]

/-- C10 witness: the theorem at the concrete payload, whose serialized form
keeps only the amount as a float. -/
theorem C10_witness :
    serialize_value (PyVal.vDec (1007 / 50)) = PyVal.vFloat (pyFloat (1007 / 50))
      ∧ ("valor", PyVal.vFloat (pyFloat (1007 / 50))) ∈ serialize_data data_w
      ∧ ("valor", PyVal.vFloat (pyFloat (1007 / 50))).2 ≠ PyVal.vNone
      ∧ is_dec_val ("valor", PyVal.vFloat (pyFloat (1007 / 50))).2 = false :=
  C10_decimal_to_float_none_dropped data_w "valor" (1007 / 50)
    ("valor", PyVal.vFloat (pyFloat (1007 / 50)))
    (List.Mem.head _) (by decide) (List.Mem.head _)
